import Mathlib

/-!
Verification of the DISSONANCE interactive core (src/interaction.rs, src/ui.rs,
src/player.rs, src/inventory.rs, src/objects.rs) against its specification.

Modelling conventions.
* The game's `f32` arithmetic is modelled over `ℚ` (exact real-number semantics).
* The code compares Euclidean planar distances (`Vec2::distance`, an `f32` square
  root) against radii and against the running minimum.  Since `Real.sqrt` is
  strictly monotone on nonnegative inputs, every comparison is translated into
  an exact squared comparison over `ℚ`:
  `sqrt d2 ≤ r ↔ 0 ≤ r ∧ d2 ≤ r ^ 2` and `sqrt d2 < sqrt c2 ↔ d2 < c2`.
  The `f32::MAX` initial minimum is modelled by an `Option` accumulator
  (`none` = no candidate yet, every real distance beats it).
* Bevy ECS specifics are made explicit: a query is a list of entity records, a
  `Commands`-based component insertion/removal is deferred (it is not visible to
  queries running in the same system), and an `EventWriter` is an `Option`/list
  of emitted events in the system's output record.
* Sprite tint changes (`sprite.color = ...`) are presentation-only and carry no
  game-logic state; they are omitted.  Entity visibility toggles are kept.
-/

namespace Dissonance

/-- Bevy `Visibility`, restricted to the two variants the code assigns. -/
inductive Visibility
  | Visible
  | Hidden
  deriving DecidableEq, Repr

/-- src/interaction.rs `InteractionAction` (the `Use` and `Open` variants are
primed because `open` is a Lean keyword). -/
inductive InteractionAction
  | examine
  | take
  | use'
  | turnOn
  | turnOff
  | refuel
  | talk
  | open'
  | close
  | custom (s : String)
  deriving DecidableEq, Repr

/-- src/objects.rs `Light`. -/
structure Light where
  is_on : Bool
  deriving DecidableEq, Repr

/-- src/objects.rs `Door`. -/
structure Door where
  is_open : Bool
  required_key_id : Option String
  deriving DecidableEq, Repr

/-- src/interaction.rs `Interactable`. -/
structure Interactable where
  name : String
  actions : List InteractionAction
  interaction_radius : Option ℚ
  deriving DecidableEq, Repr

/-- One row of the ECS queries over interactable entities: the `Entity` id, its
`Interactable` component, its planar `Transform` position, and the optional
`Light`/`Door` components consulted by the dispatcher. -/
structure Ent where
  id : Nat
  inter : Interactable
  pos : ℚ × ℚ
  light : Option Light
  door : Option Door
  deriving DecidableEq, Repr

/-- Squared planar distance between two points; stands for the square of
`a.truncate().distance(b.truncate())` in the code. -/
def dist2 (p q : ℚ × ℚ) : ℚ := (p.1 - q.1) ^ 2 + (p.2 - q.2) ^ 2

/-- The effective radius `interactable.interaction_radius.unwrap_or(40.0)`
(src/interaction.rs lines 103 and 155). -/
def effRadius (i : Interactable) : ℚ := i.interaction_radius.getD 40

/-- The `distance <= radius` test, in squared form (see the header note on the
monotone-sqrt translation). -/
def inRange (ppos : ℚ × ℚ) (e : Ent) : Bool :=
  decide (0 ≤ effRadius e.inter) &&
    decide (dist2 ppos e.pos ≤ effRadius e.inter ^ 2)

/-- Loop body of `check_nearby_interactables` (src/interaction.rs lines
98–108): keep the candidate iff `distance <= radius && distance <
closest_distance`; the accumulator stores `(entity, squared distance)` and
`none` plays the role of the `f32::MAX` initial minimum. -/
def scanStep (ppos : ℚ × ℚ) (acc : Option (Nat × ℚ)) (e : Ent) :
    Option (Nat × ℚ) :=
  let d2 := dist2 ppos e.pos
  if inRange ppos e &&
      (match acc with
        | none => true
        | some c => decide (d2 < c.2)) then
    some (e.id, d2)
  else acc

/-- The full nearest-in-range fold of `check_nearby_interactables`
(src/interaction.rs lines 95–108). -/
def closestScan (ppos : ℚ × ℚ) (ents : List Ent) : Option (Nat × ℚ) :=
  ents.foldl (scanStep ppos) none

/-- Loop body of the dispatcher's own nearest-in-range search
(src/interaction.rs lines 153–160); identical rule, but it keeps the whole
`(Entity, &Interactable)` pair (here the whole entity record). -/
def dispatchStep (ppos : ℚ × ℚ) (acc : Option (Ent × ℚ)) (e : Ent) :
    Option (Ent × ℚ) :=
  let d2 := dist2 ppos e.pos
  if inRange ppos e &&
      (match acc with
        | none => true
        | some c => decide (d2 < c.2)) then
    some (e, d2)
  else acc

/-- The dispatcher `handle_interaction_input`'s nearest-in-range recomputation
(src/interaction.rs lines 151–160). -/
def bestDispatch (ppos : ℚ × ℚ) (ents : List Ent) : Option (Ent × ℚ) :=
  ents.foldl (dispatchStep ppos) none

/-- Output of `check_nearby_interactables`: which entity ends the frame tagged
`NearbyInteractable` (at most one: all previous markers are removed, the
closest is inserted), and the indicator child's visibility. -/
structure ScanOut where
  marker : Option Nat
  indicator : Visibility
  deriving DecidableEq, Repr

/-- The proximity scan `check_nearby_interactables` (src/interaction.rs lines 82–126).
`prev` is the entity holding the `NearbyInteractable` marker from the previous
frame.  The `interactables` query parameter carries `Without<NearbyInteractable>`
(line 84), and the marker removals on lines 90–92 go through `Commands`, which
are deferred past the end of the system; so the entity holding the previous
marker is invisible to this frame's scan.  The indicator is set `Visible` iff a
closest candidate exists (lines 110–119), and the closest candidate (if any)
becomes the new marker (lines 121–124). -/
def check_nearby_interactables (prev : Option Nat) (ppos : ℚ × ℚ)
    (ents : List Ent) : ScanOut :=
  let visible := ents.filter (fun e => decide (prev ≠ some e.id))
  let c := closestScan ppos visible
  { marker := c.map Prod.fst
    indicator := if c.isSome then Visibility.Visible else Visibility.Hidden }

/-- The test `matches!(a, InteractionAction::TurnOn | InteractionAction::TurnOff)`. -/
def isLightToggle : InteractionAction → Bool
  | .turnOn => true
  | .turnOff => true
  | _ => false

/-- The test `matches!(a, InteractionAction::Open | InteractionAction::Close)`. -/
def isDoorToggle : InteractionAction → Bool
  | .open' => true
  | .close => true
  | _ => false

/-- The action-catalog builder inside `handle_interaction_input`
(src/interaction.rs lines 163–181): start from the base list; if a `Light` is
present, drop every `TurnOn`/`TurnOff` and push the state-correct one; then, if
a `Door` is present, drop every `Open`/`Close` and push the state-correct
one. -/
def buildActions (base : List InteractionAction) (light : Option Light)
    (door : Option Door) : List InteractionAction :=
  let a1 :=
    match light with
    | some l =>
        base.filter (fun a => !isLightToggle a) ++
          [if l.is_on then InteractionAction.turnOff else InteractionAction.turnOn]
    | none => base
  match door with
  | some d =>
      a1.filter (fun a => !isDoorToggle a) ++
        [if d.is_open then InteractionAction.close else InteractionAction.open']
  | none => a1

/-- The single state-correct light toggle the builder pushes
(src/interaction.rs lines 168–172). -/
def lightToggleFor (l : Light) : InteractionAction :=
  if l.is_on then InteractionAction.turnOff else InteractionAction.turnOn

/-- The single state-correct door toggle the builder pushes
(src/interaction.rs lines 176–180). -/
def doorToggleFor (d : Door) : InteractionAction :=
  if d.is_open then InteractionAction.close else InteractionAction.open'

/-- src/interaction.rs `InteractionEvent`. -/
structure InteractionEvent where
  entity : Nat
  action : InteractionAction
  with_item_id : Option String
  detailed : Bool
  deriving DecidableEq, Repr

/-- src/ui.rs `ContextMenuEvent`. -/
structure ContextMenuEvent where
  entity : Nat
  actions : List InteractionAction
  object_name : String
  deriving DecidableEq, Repr

/-- The signals `handle_interaction_input` can raise in one frame: at most one
direct `InteractionEvent`, at most one `ContextMenuEvent`, plus whether the
`info!` tracing line on src/interaction.rs line 183 was emitted. -/
structure DispatchOut where
  interaction : Option InteractionEvent
  menu : Option ContextMenuEvent
  info_logged : Bool
  deriving DecidableEq, Repr

/-- The dispatcher `handle_interaction_input` (src/interaction.rs lines 128–196): gated by the
modal flags (line 139), triggered by an interact key edge (lines 144–148);
recomputes the nearest in-range interactable, builds its catalog, then fires
the single action directly if the catalog has exactly one entry and otherwise
writes a `ContextMenuEvent` carrying the (possibly empty) catalog. -/
def handle_interaction_input (menu_open dialog_open interact_pressed : Bool)
    (ppos : ℚ × ℚ) (ents : List Ent) : DispatchOut :=
  if menu_open || dialog_open then
    { interaction := none, menu := none, info_logged := false }
  else if !interact_pressed then
    { interaction := none, menu := none, info_logged := false }
  else
    match bestDispatch ppos ents with
    | none => { interaction := none, menu := none, info_logged := false }
    | some (e, _) =>
        let actions := buildActions e.inter.actions e.light e.door
        match actions with
        | [a] =>
            { interaction :=
                some { entity := e.id, action := a, with_item_id := none,
                       detailed := false }
              menu := none
              info_logged := true }
        | _ =>
            { interaction := none
              menu :=
                some { entity := e.id, actions := actions,
                       object_name := e.inter.name }
              info_logged := true }

/-! Dialog log state machine (src/ui.rs). -/

/-- The dialog-side fields of `UiState` (src/ui.rs lines 53–56) together with
the two pieces of presentation state the dialog systems write: the
`MessageText` contents and the `MessageLogRoot` visibility. -/
structure DialogState where
  dialog_open : Bool
  dialog_queue : List String
  dialog_index : Nat
  dialog_opened_at : ℚ
  text : String
  root_visible : Visibility
  deriving DecidableEq, Repr

/-- The cumulative page: `queue.iter().take(index + 1).join("\n")`
(src/ui.rs lines 425–431 and 481–487). -/
def shownText (queue : List String) (index : Nat) : String :=
  String.intercalate "\n" (queue.take (index + 1))

/-- The system `update_log_display` (src/ui.rs lines 401–436): push every received
`LogEvent` line onto the queue; if at least one arrived and the dialog is
closed and the queue is nonempty, open the dialog at index 0, record the open
timestamp, show the log root, and display the cumulative page. -/
def update_log_display (events : List String) (now : ℚ) (s : DialogState) :
    DialogState :=
  let s := { s with dialog_queue := s.dialog_queue ++ events }
  if events.isEmpty then s
  else if !s.dialog_open && !s.dialog_queue.isEmpty then
    { s with
        dialog_open := true
        dialog_index := 0
        dialog_opened_at := now
        root_visible := Visibility.Visible
        text := shownText s.dialog_queue 0 }
  else s

/-- The constant `DEBOUNCE_SECS = 0.08` (src/ui.rs line 450). -/
def DEBOUNCE_SECS : ℚ := 2 / 25

/-- The system `handle_dialog_input` (src/ui.rs lines 438–490): no-op unless the dialog is
open, the debounce window has passed and an advance key was just pressed;
otherwise increment the index; if it reaches the queue length, close the
dialog, clear the queue and reset the index, else rebuild the cumulative
page. -/
def handle_dialog_input (advance : Bool) (now : ℚ) (s : DialogState) :
    DialogState :=
  if !s.dialog_open then s
  else if now - s.dialog_opened_at < DEBOUNCE_SECS then s
  else if !advance then s
  else
    let i := s.dialog_index + 1
    if s.dialog_queue.length ≤ i then
      { s with
          dialog_open := false
          dialog_queue := []
          dialog_index := 0
          text := ""
          root_visible := Visibility.Hidden }
    else
      { s with dialog_index := i, text := shownText s.dialog_queue i }

/-- Folding a sequence of advance presses (one `handle_dialog_input` call per
press, at the given times) over a dialog state. -/
def advanceAll (ts : List ℚ) (s : DialogState) : DialogState :=
  ts.foldl (fun s t => handle_dialog_input true t s) s

/-! Inventory (src/inventory.rs). -/

/-- src/inventory.rs `InventoryItem` (`icon_color` is presentation-only and
omitted). -/
structure InventoryItem where
  id : String
  name : String
  description : String
  deriving DecidableEq, Repr

/-- src/inventory.rs `Inventory`. -/
structure Inventory where
  items : List InventoryItem
  max_size : Nat
  is_open : Bool
  deriving DecidableEq, Repr

/-- The constructor `Inventory::new` (src/inventory.rs lines 27–33). -/
def Inventory.new (max_size : Nat) : Inventory :=
  { items := [], max_size := max_size, is_open := false }

/-- The method `Inventory::add_item` (src/inventory.rs lines 35–42). -/
def Inventory.add_item (inv : Inventory) (item : InventoryItem) :
    Inventory × Bool :=
  if inv.items.length < inv.max_size then
    ({ inv with items := inv.items ++ [item] }, true)
  else (inv, false)

/-- Rust's `iter().position(pred)` on a list. -/
def position (p : α → Bool) : List α → Option Nat
  | [] => none
  | a :: l => if p a then some 0 else (position p l).map (· + 1)

/-- Rust's `Vec::remove(pos)` on a list (total: out-of-range indices leave the list
unchanged; `take_item_by_id` only calls it with a valid position). -/
def removeAt : List α → Nat → List α
  | [], _ => []
  | _ :: l, 0 => l
  | a :: l, n + 1 => a :: removeAt l n

/-- The method `Inventory::take_item_by_id` (src/inventory.rs lines 52–59): find the first
item with the given id, remove it and report success. -/
def Inventory.take_item_by_id (inv : Inventory) (id : String) :
    Inventory × Bool :=
  match position (fun i => i.id == id) inv.items with
  | some pos => ({ inv with items := removeAt inv.items pos }, true)
  | none => (inv, false)

/-- The method `Inventory::has_item_id` (src/inventory.rs lines 61–63). -/
def Inventory.has_item_id (inv : Inventory) (id : String) : Bool :=
  inv.items.any (fun i => i.id == id)

/-! The `Open` branch of `process_interactions` (src/interaction.rs). -/

/-- Result of executing `Open` on a door-bearing entity: the updated `Door`
component, whether the `Solid` marker is present afterwards, the entity's
visibility, the updated inventory, and the `LogEvent` lines written (in
order). -/
structure OpenOutcome where
  door : Door
  solid : Bool
  vis : Visibility
  inv : Inventory
  log : List String
  deriving DecidableEq, Repr

/-- The door case of `InteractionAction::Open` in `process_interactions`
(src/interaction.rs lines 261–302): an already-open door logs a single no-op
line; otherwise the key requirement is checked against the inventory
(`None` means always permitted); if permitted, one matching key is consumed
(when one is required), the door opens, its `Solid` marker is removed (a
deferred `Commands` removal), the sprite is hidden, and two success lines are
logged; if not permitted, two failure lines are logged with no state change. -/
def processOpenDoor (name : String) (d : Door) (solid : Bool)
    (vis : Visibility) (inv : Inventory) : OpenOutcome :=
  if d.is_open then
    { door := d, solid := solid, vis := vis, inv := inv
      log := ["* The " ++ name ++ " is already open."] }
  else
    let can_open :=
      match d.required_key_id with
      | some key_id => inv.has_item_id key_id
      | none => true
    if can_open then
      let inv' :=
        match d.required_key_id with
        | some key_id => (inv.take_item_by_id key_id).1
        | none => inv
      let l2 :=
        match d.required_key_id with
        | some _ => "* The lock clicks open."
        | none => "* It swings open."
      { door := { d with is_open := true }, solid := false
        vis := Visibility.Hidden, inv := inv'
        log := ["* You open the " ++ name ++ ".", l2] }
    else
      { door := d, solid := solid, vis := vis, inv := inv
        log := ["* The " ++ name ++ " is locked.", "* You need a matching key."] }

/-! Player movement, collision and facing (src/player.rs). -/

/-- src/player.rs `Direction`. -/
inductive Direction
  | up
  | down
  | left
  | right
  deriving DecidableEq, Repr

/-- The held movement keys for one frame (W/Up, S/Down, A/Left, D/Right pairs
collapsed to one flag each). -/
structure MoveKeys where
  up : Bool
  down : Bool
  left : Bool
  right : Bool
  deriving DecidableEq, Repr

/-- The raw direction vector accumulated on src/player.rs lines 76–89. -/
def moveVec (keys : MoveKeys) : ℚ × ℚ :=
  ((if keys.right then (1 : ℚ) else 0) - (if keys.left then (1 : ℚ) else 0),
   (if keys.up then (1 : ℚ) else 0) - (if keys.down then (1 : ℚ) else 0))

/-- One solid body as seen by `player_movement`: its transform translation and
the sprite's `custom_size` (src/player.rs lines 103–109). -/
structure SolidRec where
  cx : ℚ
  cy : ℚ
  custom_size : Option (ℚ × ℚ)
  deriving DecidableEq, Repr

/-- Half extents `sprite.custom_size.unwrap_or(Vec2::splat(16.0)) / 2.0`. -/
def solidHalf (s : SolidRec) : ℚ × ℚ :=
  let sz := s.custom_size.getD (16, 16)
  (sz.1 / 2, sz.2 / 2)

/-- Solid AABB edges (src/player.rs lines 106–109). -/
def sMinX (s : SolidRec) : ℚ := s.cx - (solidHalf s).1

def sMaxX (s : SolidRec) : ℚ := s.cx + (solidHalf s).1

def sMinY (s : SolidRec) : ℚ := s.cy - (solidHalf s).2

def sMaxY (s : SolidRec) : ℚ := s.cy + (solidHalf s).2

/-- Player half extents `Vec2::new(8.0, 10.0)` (src/player.rs line 97). -/
def halfX : ℚ := 8

def halfY : ℚ := 10

/-- The AABB overlap test of src/player.rs lines 111–118 (and 138–144) at a
candidate player position `(px, py)`. -/
def overlapB (px py : ℚ) (s : SolidRec) : Bool :=
  (decide (sMinX s < px + halfX) && decide (px - halfX < sMaxX s)) &&
    (decide (sMinY s < py + halfY) && decide (py - halfY < sMaxY s))

/-- Resolution against one solid in the X loop (src/player.rs lines 118–125):
on overlap, clamp X to the edge matching the movement sign. -/
def resolveXStep (dx px py : ℚ) (s : SolidRec) : ℚ :=
  if overlapB px py s then
    if 0 < dx then sMinX s - halfX
    else if dx < 0 then sMaxX s + halfX
    else px
  else px

/-- The whole X pass (src/player.rs lines 100–126): apply the X delta, then
resolve against every solid in order. -/
def xPass (dx : ℚ) (solids : List SolidRec) (px py : ℚ) : ℚ :=
  solids.foldl (fun x s => resolveXStep dx x py s) (px + dx)

/-- Resolution against one solid in the Y loop (src/player.rs lines 145–151),
with the already-resolved X position `x`. -/
def resolveYStep (dy x py : ℚ) (s : SolidRec) : ℚ :=
  if overlapB x py s then
    if 0 < dy then sMinY s - halfY
    else if dy < 0 then sMaxY s + halfY
    else py
  else py

/-- The whole Y pass (src/player.rs lines 128–152), run at the X position the
X pass produced. -/
def yPass (dy : ℚ) (solids : List SolidRec) (x py : ℚ) : ℚ :=
  solids.foldl (fun y s => resolveYStep dy x y s) (py + dy)

/-- The movement body (src/player.rs lines 75–153) given the already-computed
step `delta` (the code's `movement.normalize() * player.speed *
time.delta_secs()`; the normalization is an `f32` square root, so `delta` is
taken as an input here).  Nothing moves when no direction key is held
(`movement.length() > 0` fails exactly when the raw vector is zero). -/
def movementStep (keys : MoveKeys) (delta : ℚ × ℚ) (solids : List SolidRec)
    (pos : ℚ × ℚ) : ℚ × ℚ :=
  if moveVec keys = (0, 0) then pos
  else
    let x := xPass delta.1 solids pos.1 pos.2
    (x, yPass delta.2 solids x pos.2)

/-- The system `player_movement` (src/player.rs lines 63–155): the modal gate on lines
70–73 short-circuits the whole system. -/
def player_movement (menu_open dialog_open : Bool) (keys : MoveKeys)
    (delta : ℚ × ℚ) (solids : List SolidRec) (pos : ℚ × ℚ) : ℚ × ℚ :=
  if menu_open || dialog_open then pos
  else movementStep keys delta solids pos

/-- The system `update_player_facing` (src/player.rs lines 157–177). -/
def update_player_facing (menu_open dialog_open : Bool) (keys : MoveKeys)
    (f : Direction) : Direction :=
  if menu_open || dialog_open then f
  else if keys.up then Direction.up
  else if keys.down then Direction.down
  else if keys.left then Direction.left
  else if keys.right then Direction.right
  else f

/-- The dialog state while paging: open at `index` over `lines`, showing the
cumulative page, log root visible. -/
def pageState (lines : List String) (openedAt : ℚ) (index : Nat) : DialogState :=
  { dialog_open := true
    dialog_queue := lines
    dialog_index := index
    dialog_opened_at := openedAt
    text := shownText lines index
    root_visible := Visibility.Visible }

/-- The closed dialog state `handle_dialog_input` resets to (the open
timestamp is not touched by the close path). -/
def closedState (openedAt : ℚ) : DialogState :=
  { dialog_open := false
    dialog_queue := []
    dialog_index := 0
    dialog_opened_at := openedAt
    text := ""
    root_visible := Visibility.Hidden }

/-- The implicit dialog invariant of C10: whenever the dialog is open, the
queue is nonempty and the index is in bounds, so the cumulative page
`lines[0..=index]` is well defined. -/
def DialogInv (s : DialogState) : Prop :=
  s.dialog_open = true →
    s.dialog_queue ≠ [] ∧ s.dialog_index < s.dialog_queue.length

/-! Concrete fixtures used by counterexamples and witnesses. -/

/-- The app-start dialog state: closed, empty queue. -/
def closed0 : DialogState := closedState 0

/-- A default-radius interactable akin to the Old Lamp of src/objects.rs. -/
def lampInter : Interactable :=
  { name := "Old Lamp", actions := [InteractionAction.examine],
    interaction_radius := none }

/-- A single in-range interactable that already holds the previous frame's
`NearbyInteractable` marker. -/
def flickerEnt : Ent :=
  { id := 0, inter := lampInter, pos := (0, 0), light := none, door := none }

/-- An in-range interactable whose base action list is empty and which bears
neither `Light` nor `Door`, so its built catalog is empty. -/
def emptyCatalogEnt : Ent :=
  { id := 7
    inter := { name := "Crate", actions := [], interaction_radius := none }
    pos := (0, 0), light := none, door := none }

/-- A 16×16 solid centred at (20, 0), in the path of a player moving right
from the origin. -/
def wallSolid : SolidRec := { cx := 20, cy := 0, custom_size := some (16, 16) }

/-- The Rusty Key item as `Take` builds it (id = name = interactable name). -/
def rustyKeyItem : InventoryItem :=
  { id := "Rusty Key", name := "Rusty Key",
    description := "A Rusty Key that you picked up." }

/-- An inventory holding exactly the Rusty Key. -/
def keyInv : Inventory :=
  { items := [rustyKeyItem], max_size := 8, is_open := false }

/-- The closed, key-locked Metal Door of src/objects.rs. -/
def metalDoor : Door :=
  { is_open := false, required_key_id := some "Rusty Key" }

/-! Theorems. -/

/-- One step of the dispatcher's fold, projected to `(id, distance)`, is one
step of the scan's fold. -/
lemma dispatch_scan_step (ppos : ℚ × ℚ) (e : Ent) (acc : Option (Ent × ℚ)) :
    (dispatchStep ppos acc e).map (fun c => (c.1.id, c.2)) =
      scanStep ppos (acc.map (fun c => (c.1.id, c.2))) e := by
  cases acc with
  | none =>
      simp only [Option.map_none, dispatchStep, scanStep]
      by_cases h : inRange ppos e = true <;> simp [h]
  | some c =>
      simp only [Option.map_some, dispatchStep, scanStep]
      by_cases h1 : inRange ppos e = true <;>
        by_cases h2 : dist2 ppos e.pos < c.2 <;>
          simp [h1, h2]

/-- The dispatcher's fold keeps the whole entity record where the scan's fold
keeps only the entity id; projecting the former yields the latter. -/
lemma foldl_dispatch_scan (ppos : ℚ × ℚ) (ents : List Ent) :
    ∀ acc : Option (Ent × ℚ),
      (ents.foldl (dispatchStep ppos) acc).map (fun c => (c.1.id, c.2)) =
        ents.foldl (scanStep ppos) (acc.map (fun c => (c.1.id, c.2))) := by
  induction ents with
  | nil => intro acc; rfl
  | cons e ents ih =>
      intro acc
      rw [List.foldl_cons, List.foldl_cons, ih, dispatch_scan_step]

/-- C1: on a state given by a player position and a set of interactables (with
positions and optional override radii), the nearest-in-range interactable the
dispatcher recomputes on an interact press (src/interaction.rs lines 151–160)
is exactly the entity the per-frame proximity scan tags as nearest on that
same state (lines 95–124): same nearest-within-radius rule with radius
`override_radius ?? 40`, including the same first-wins tie-break. -/
theorem dispatch_matches_scan (ppos : ℚ × ℚ) (ents : List Ent) :
    (bestDispatch ppos ents).map (fun c => c.1.id) =
      (check_nearby_interactables none ppos ents).marker := by
  have hfilter :
      ents.filter (fun e => decide ((none : Option Nat) ≠ some e.id)) = ents := by
    apply List.filter_eq_self.mpr
    intro a _
    simp
  have h :
      (ents.foldl (dispatchStep ppos) none).map (fun c => (c.1.id, c.2)) =
        ents.foldl (scanStep ppos) none :=
    foldl_dispatch_scan ppos ents none
  simp only [check_nearby_interactables, hfilter, closestScan, bestDispatch]
  rw [← h, Option.map_map]
  rfl

/-- C2, at the failing input: one interactable (default radius 40) sits at the
player's position and still holds the previous frame's marker.  The claim (and
the spec's §4.2) say it must be retagged and the indicator shown, but the
scan's `Without<NearbyInteractable>` query filter, combined with the deferred
`Commands` marker removal, hides it from this frame's scan: no entity is
tagged and the indicator is hidden.  On the marker-free state the same scan
behaves exactly as the claim describes. -/
theorem scan_skips_marked_entity :
    check_nearby_interactables (some 0) (0, 0) [flickerEnt] =
      { marker := none, indicator := Visibility.Hidden } ∧
    check_nearby_interactables none (0, 0) [flickerEnt] =
      { marker := some 0, indicator := Visibility.Visible } := by
  constructor
  · rfl
  · have hf :
        List.filter (fun e => decide ((none : Option Nat) ≠ some e.id))
            [flickerEnt] = [flickerEnt] := rfl
    simp only [check_nearby_interactables, closestScan, hf]
    norm_num [scanStep, inRange, dist2, effRadius, flickerEnt, lampInter,
      List.foldl_cons, List.foldl_nil]

/-- C3 counterexample: an interact press targeting an in-range interactable
with an empty built catalog is not a silent no-op — the dispatcher's
`else` branch (src/interaction.rs lines 186–192) emits a `ContextMenuEvent`
carrying the empty action list, and the `info!` line 183 is logged. -/
theorem empty_catalog_emits_menu :
    handle_interaction_input false false true (0, 0) [emptyCatalogEnt] =
      { interaction := none
        menu := some { entity := 7, actions := [], object_name := "Crate" }
        info_logged := true } := by
  norm_num [handle_interaction_input, bestDispatch, dispatchStep, inRange,
    dist2, effRadius, buildActions, emptyCatalogEnt]

/-- C3 (amended): on an interact press targeting an in-range interactable
whose built catalog is empty, the dispatcher fires no `InteractionEvent`, but
it does emit a menu-open request carrying the empty action list, and it does
log the `info!` tracing line. -/
theorem empty_catalog_menu_request (menu_open dialog_open : Bool)
    (ppos : ℚ × ℚ) (ents : List Ent) (e : Ent) (d : ℚ)
    (hgate : (menu_open || dialog_open) = false)
    (hbest : bestDispatch ppos ents = some (e, d))
    (hempty : buildActions e.inter.actions e.light e.door = []) :
    handle_interaction_input menu_open dialog_open true ppos ents =
      { interaction := none
        menu := some { entity := e.id, actions := [], object_name := e.inter.name }
        info_logged := true } := by
  simp [handle_interaction_input, hgate, hbest, hempty]

/-- C3 witness: the amended statement applied at the concrete empty-catalog
entity. -/
theorem empty_catalog_menu_request_witness :
    handle_interaction_input false false true (0, 0) [emptyCatalogEnt] =
      { interaction := none
        menu := some { entity := emptyCatalogEnt.id, actions := [],
                       object_name := emptyCatalogEnt.inter.name }
        info_logged := true } :=
  empty_catalog_menu_request false false (0, 0) [emptyCatalogEnt]
    emptyCatalogEnt 0 rfl
    (by norm_num [bestDispatch, dispatchStep, inRange, dist2, effRadius,
      emptyCatalogEnt])
    rfl

/-- A debounced advance press while a page `k` with `k + 1 < N` pages remain
turns page `k` into page `k + 1`. -/
lemma handle_advance_page (lines : List String) (now t : ℚ) (k : Nat)
    (ht : DEBOUNCE_SECS ≤ t - now) (hk : k + 1 < lines.length) :
    handle_dialog_input true t (pageState lines now k) =
      pageState lines now (k + 1) := by
  unfold handle_dialog_input pageState
  simp [not_lt.mpr ht, Nat.not_le.mpr hk]

/-- A debounced advance press on the last page closes the dialog. -/
lemma handle_advance_close (lines : List String) (now t : ℚ) (k : Nat)
    (ht : DEBOUNCE_SECS ≤ t - now) (hk : lines.length ≤ k + 1) :
    handle_dialog_input true t (pageState lines now k) = closedState now := by
  unfold handle_dialog_input pageState closedState
  simp [not_lt.mpr ht, hk]

/-- Running a sequence of debounced advances that stays inside the queue walks
the page index forward one press at a time. -/
lemma advanceAll_pages (lines : List String) (now : ℚ) :
    ∀ (ts : List ℚ) (k : Nat), (∀ t ∈ ts, DEBOUNCE_SECS ≤ t - now) →
      k + ts.length < lines.length →
      advanceAll ts (pageState lines now k) =
        pageState lines now (k + ts.length) := by
  intro ts
  induction ts with
  | nil => intro k _ _; rfl
  | cons t ts ih =>
      intro k hts hlen
      have hstep :
          handle_dialog_input true t (pageState lines now k) =
            pageState lines now (k + 1) := by
        apply handle_advance_page
        · exact hts t (List.mem_cons_self t ts)
        · simp only [List.length_cons] at hlen
          omega
      have hrest := ih (k + 1)
        (fun u hu => hts u (List.mem_cons_of_mem t hu))
        (by simp only [List.length_cons] at hlen; omega)
      calc advanceAll (t :: ts) (pageState lines now k)
          = advanceAll ts (handle_dialog_input true t (pageState lines now k)) := rfl
        _ = advanceAll ts (pageState lines now (k + 1)) := by rw [hstep]
        _ = pageState lines now (k + 1 + ts.length) := hrest
        _ = pageState lines now (k + (t :: ts).length) := by
              simp only [List.length_cons]
              congr 1
              omega

/-- C4: a batch of `N ≥ 1` log lines arriving while the dialog is closed opens
it on page 0 (showing line 0); after the k-th debounced advance (k < N) the
dialog shows the join of `lines[0..=k]`; the N-th advance closes the dialog,
clears the queue and resets the index to 0.  (`ts` is the list of advance
press times, all past the 0.08 s debounce window.) -/
theorem dialog_pagination (lines : List String) (s0 : DialogState) (now : ℚ)
    (ts : List ℚ)
    (hclosed : s0.dialog_open = false) (hq : s0.dialog_queue = [])
    (hN : 1 ≤ lines.length) (hts : ∀ t ∈ ts, DEBOUNCE_SECS ≤ t - now)
    (hlen : lines.length ≤ ts.length) :
    update_log_display lines now s0 = pageState lines now 0 ∧
    (∀ k, k < lines.length →
      advanceAll (ts.take k) (pageState lines now 0) = pageState lines now k) ∧
    advanceAll (ts.take lines.length) (pageState lines now 0) =
      closedState now := by
  have htake : ∀ (k : Nat) (t : ℚ), t ∈ ts.take k → DEBOUNCE_SECS ≤ t - now :=
    fun k t ht => hts t (List.take_subset k ts ht)
  have hpages : ∀ k, k < lines.length →
      advanceAll (ts.take k) (pageState lines now 0) = pageState lines now k := by
    intro k hk
    have hlt : k ≤ ts.length := le_trans (le_of_lt hk) hlen
    have := advanceAll_pages lines now (ts.take k) 0 (htake k)
      (by rw [List.length_take]; omega)
    rw [this, Nat.zero_add, List.length_take]
    congr 1
    omega
  refine ⟨?_, hpages, ?_⟩
  · have hne : lines ≠ [] := List.ne_nil_of_length_pos (by omega)
    unfold update_log_display pageState
    simp [hclosed, hq, List.isEmpty_iff, hne]
  · obtain ⟨m, hm⟩ : ∃ m, lines.length = m + 1 :=
      ⟨lines.length - 1, by omega⟩
    have hmts : m < ts.length := by omega
    have htk : ts.take (m + 1) = ts.take m ++ [ts.get ⟨m, hmts⟩] := by
      rw [List.take_succ]
      simp [List.getElem?_eq_getElem hmts]
    have hsplit :
        advanceAll (ts.take (m + 1)) (pageState lines now 0) =
          advanceAll [ts.get ⟨m, hmts⟩]
            (advanceAll (ts.take m) (pageState lines now 0)) := by
      rw [htk]
      unfold advanceAll
      rw [List.foldl_append]
    rw [hm, hsplit, hpages m (by omega)]
    show handle_dialog_input true (ts.get ⟨m, hmts⟩) (pageState lines now m) =
      closedState now
    apply handle_advance_close
    · exact hts _ (List.get_mem ts m hmts)
    · omega

/-- C4 witness: two lines queued while closed, two sufficiently late advance
presses. -/
theorem dialog_pagination_witness :
    update_log_display ["* a", "* b"] 0 closed0 = pageState ["* a", "* b"] 0 0 ∧
    (∀ k, k < (["* a", "* b"] : List String).length →
      advanceAll ([(1 : ℚ), 2].take k) (pageState ["* a", "* b"] 0 0) =
        pageState ["* a", "* b"] 0 k) ∧
    advanceAll ([(1 : ℚ), 2].take (["* a", "* b"] : List String).length)
        (pageState ["* a", "* b"] 0 0) = closedState 0 :=
  dialog_pagination ["* a", "* b"] closed0 0 [1, 2] rfl rfl
    (by norm_num)
    (by intro t ht; fin_cases ht <;> norm_num [DEBOUNCE_SECS])
    (by norm_num)

/-- C10: the dialog invariant (open implies nonempty queue and in-bounds
index) is preserved by both dialog systems: queueing lines (which can open
the dialog at index 0) and advancing (which either stays in bounds or closes
and resets). -/
theorem dialog_invariant_preserved (s : DialogState) (events : List String)
    (adv : Bool) (now t : ℚ) (h : DialogInv s) :
    DialogInv (update_log_display events now s) ∧
    DialogInv (handle_dialog_input adv t s) := by
  constructor
  · simp only [update_log_display]
    split_ifs with h1 h2
    · intro hopen
      obtain ⟨hne, hlt⟩ := h hopen
      refine ⟨by simp [hne], ?_⟩
      simp only [List.length_append]
      omega
    · intro _
      simp only [Bool.and_eq_true, Bool.not_eq_true'] at h2
      have hne : s.dialog_queue ++ events ≠ [] := by
        intro hcon
        rw [hcon] at h2
        simp at h2
      refine ⟨hne, ?_⟩
      have := List.length_pos.mpr hne
      simpa using this
    · intro hopen
      obtain ⟨hne, hlt⟩ := h hopen
      refine ⟨by simp [hne], ?_⟩
      simp only [List.length_append]
      omega
  · simp only [handle_dialog_input]
    split_ifs with h1 h2 h3 h4
    · exact h
    · exact h
    · exact h
    · intro hcon
      simp at hcon
    · intro _
      have hlt := Nat.lt_of_not_le h4
      refine ⟨?_, ?_⟩
      · show s.dialog_queue ≠ []
        exact List.ne_nil_of_length_pos (by omega)
      · show s.dialog_index + 1 < s.dialog_queue.length
        omega

/-- C10 witness: the invariant holds on an open one-line page and is preserved
by queueing a line and by one advance press. -/
theorem dialog_invariant_preserved_witness :
    DialogInv (update_log_display ["* y"] 3 (pageState ["* x"] 0 0)) ∧
    DialogInv (handle_dialog_input true 1 (pageState ["* x"] 0 0)) :=
  dialog_invariant_preserved (pageState ["* x"] 0 0) ["* y"] true 3 1
    (by intro _; simp [pageState])

/-- The pushed light toggle is a light toggle and not a door toggle; the
pushed door toggle is a door toggle and not a light toggle. -/
lemma isLightToggle_lightToggleFor (l : Light) :
    isLightToggle (lightToggleFor l) = true := by
  cases l with
  | mk b => cases b <;> rfl

lemma isDoorToggle_lightToggleFor (l : Light) :
    isDoorToggle (lightToggleFor l) = false := by
  cases l with
  | mk b => cases b <;> rfl

lemma isLightToggle_doorToggleFor (d : Door) :
    isLightToggle (doorToggleFor d) = false := by
  cases d with
  | mk b k => cases b <;> rfl

lemma isDoorToggle_doorToggleFor (d : Door) :
    isDoorToggle (doorToggleFor d) = true := by
  cases d with
  | mk b k => cases b <;> rfl

/-- Closed form of the catalog for a light-only entity. -/
lemma buildActions_light_only (base : List InteractionAction) (l : Light) :
    buildActions base (some l) none =
      base.filter (fun a => !isLightToggle a) ++ [lightToggleFor l] := rfl

/-- Closed form of the catalog for a door-only entity. -/
lemma buildActions_door_only (base : List InteractionAction) (d : Door) :
    buildActions base none (some d) =
      base.filter (fun a => !isDoorToggle a) ++ [doorToggleFor d] := rfl

/-- Closed form of the catalog for an entity bearing both components: the
door's retain pass keeps the already-pushed light toggle, so the light toggle
ends up second to last, before the door toggle. -/
lemma buildActions_both (base : List InteractionAction) (l : Light) (d : Door) :
    buildActions base (some l) (some d) =
      ((base.filter (fun a => !isLightToggle a)).filter
          (fun a => !isDoorToggle a)) ++
        [lightToggleFor l, doorToggleFor d] := by
  show (base.filter (fun a => !isLightToggle a) ++ [lightToggleFor l]).filter
        (fun a => !isDoorToggle a) ++ [doorToggleFor d] = _
  rw [List.filter_append]
  have hlt : List.filter (fun a => !isDoorToggle a) [lightToggleFor l] =
      [lightToggleFor l] := by
    simp [List.filter_cons, isDoorToggle_lightToggleFor]
  rw [hlt, List.append_assoc]
  rfl

/-- A predicate counts zero hits in a list filtered by its negation (also when
the filter carries an extra conjunct). -/
lemma countP_filter_not (p q : α → Bool) (l : List α) :
    (l.filter fun a => !p a && q a).countP p = 0 := by
  rw [List.countP_eq_zero]
  intro a ha
  have h := (List.mem_filter.mp ha).2
  intro hp
  rw [hp] at h
  simp at h

/-- C5 counterexample: an entity bearing both an off `Light` and a closed
`Door`, with empty base list, builds `[TurnOn, Open]` — the state-correct
light toggle is present exactly once but is *not* placed at the end of the
list (the door toggle is). -/
theorem light_toggle_not_last :
    buildActions [] (some { is_on := false })
        (some { is_open := false, required_key_id := none }) =
      [InteractionAction.turnOn, InteractionAction.open'] ∧
    (buildActions [] (some { is_on := false })
        (some { is_open := false, required_key_id := none })).getLast? =
      some InteractionAction.open' := by
  constructor <;> rfl

/-- C5 (amended): the built catalog preserves the relative order of all
non-toggle base entries; when a `Light` is present it contains exactly one of
TurnOn/TurnOff — the one matching `is_on` — appended after the base entries
(it is the last element when no `Door` is present; when a `Door` is also
present the catalog ends with the light toggle followed by the door toggle);
when a `Door` is present it contains exactly one of Open/Close — the one
matching `is_open` — as the final element. -/
theorem buildActions_toggle_spec (base : List InteractionAction)
    (light : Option Light) (door : Option Door) :
    ((buildActions base light door).filter
        (fun a => !isLightToggle a && !isDoorToggle a) =
      base.filter (fun a => !isLightToggle a && !isDoorToggle a)) ∧
    (∀ l, light = some l →
      (buildActions base light door).countP isLightToggle = 1 ∧
      lightToggleFor l ∈ buildActions base light door ∧
      (door = none →
        (buildActions base light door).getLast? = some (lightToggleFor l)) ∧
      (∀ d, door = some d →
        buildActions base light door =
          base.filter (fun a => !isLightToggle a && !isDoorToggle a) ++
            [lightToggleFor l, doorToggleFor d])) ∧
    (∀ d, door = some d →
      (buildActions base light door).countP isDoorToggle = 1 ∧
      doorToggleFor d ∈ buildActions base light door ∧
      (buildActions base light door).getLast? = some (doorToggleFor d)) := by
  have hswap' : ∀ m : List InteractionAction,
      (m.filter fun a => !isLightToggle a).filter (fun a => !isDoorToggle a) =
        m.filter (fun a => !isLightToggle a && !isDoorToggle a) := by
    intro m
    rw [List.filter_filter]
    apply List.filter_congr
    intro a _
    cases isLightToggle a <;> cases isDoorToggle a <;> rfl
  rcases light with _ | l <;> rcases door with _ | d
  · refine ⟨rfl, ?_, ?_⟩ <;> intro x hx <;> cases hx
  · refine ⟨?_, ?_, ?_⟩
    · rw [buildActions_door_only, List.filter_append]
      have h1 : List.filter (fun a => !isLightToggle a && !isDoorToggle a)
          [doorToggleFor d] = [] := by
        simp [List.filter_cons, isDoorToggle_doorToggleFor]
      rw [h1, List.append_nil, List.filter_filter]
      apply List.filter_congr
      intro a _
      cases isLightToggle a <;> cases isDoorToggle a <;> rfl
    · intro x hx
      cases hx
    · intro d' hd'
      cases hd'
      refine ⟨?_, ?_, ?_⟩
      · rw [buildActions_door_only, List.countP_append]
        have h0 : (base.filter fun a => !isDoorToggle a).countP isDoorToggle
            = 0 := by
          have h := countP_filter_not isDoorToggle (fun _ => true) base
          simp only [Bool.and_true] at h
          exact h
        rw [h0]
        simp [List.countP_cons, isDoorToggle_doorToggleFor]
      · rw [buildActions_door_only]
        simp
      · rw [buildActions_door_only, List.getLast?_concat]
  · refine ⟨?_, ?_, ?_⟩
    · rw [buildActions_light_only, List.filter_append]
      have h1 : List.filter (fun a => !isLightToggle a && !isDoorToggle a)
          [lightToggleFor l] = [] := by
        simp [List.filter_cons, isLightToggle_lightToggleFor]
      rw [h1, List.append_nil, List.filter_filter]
      apply List.filter_congr
      intro a _
      cases isLightToggle a <;> cases isDoorToggle a <;> rfl
    · intro l' hl'
      cases hl'
      refine ⟨?_, ?_, ?_, ?_⟩
      · rw [buildActions_light_only, List.countP_append]
        have h0 : (base.filter fun a => !isLightToggle a).countP isLightToggle
            = 0 := by
          have h := countP_filter_not isLightToggle (fun _ => true) base
          simp only [Bool.and_true] at h
          exact h
        rw [h0]
        simp [List.countP_cons, isLightToggle_lightToggleFor]
      · rw [buildActions_light_only]
        simp
      · intro _
        rw [buildActions_light_only, List.getLast?_concat]
      · intro x hx
        cases hx
    · intro x hx
      cases hx
  · have hform := buildActions_both base l d
    have hcomb :
        (base.filter (fun a => !isLightToggle a)).filter
            (fun a => !isDoorToggle a) =
          base.filter (fun a => !isLightToggle a && !isDoorToggle a) :=
      hswap' base
    refine ⟨?_, ?_, ?_⟩
    · rw [hform, List.filter_append, hcomb]
      have h1 : List.filter (fun a => !isLightToggle a && !isDoorToggle a)
          [lightToggleFor l, doorToggleFor d] = [] := by
        simp [List.filter_cons, isLightToggle_lightToggleFor,
          isDoorToggle_doorToggleFor]
      rw [h1, List.append_nil, List.filter_filter]
      apply List.filter_congr
      intro a _
      cases isLightToggle a <;> cases isDoorToggle a <;> rfl
    · intro l' hl'
      cases hl'
      refine ⟨?_, ?_, ?_, ?_⟩
      · rw [hform, hcomb, List.countP_append]
        have h0 : (base.filter fun a =>
            !isLightToggle a && !isDoorToggle a).countP isLightToggle = 0 :=
          countP_filter_not isLightToggle (fun a => !isDoorToggle a) base
        rw [h0]
        simp [List.countP_cons, isLightToggle_lightToggleFor,
          isLightToggle_doorToggleFor]
      · rw [hform]
        simp
      · intro hcon
        cases hcon
      · intro d' hd'
        cases hd'
        rw [hform, hcomb]
    · intro d' hd'
      cases hd'
      refine ⟨?_, ?_, ?_⟩
      · rw [hform, hcomb, List.countP_append]
        have h0 : (base.filter fun a =>
            !isLightToggle a && !isDoorToggle a).countP isDoorToggle = 0 := by
          have := countP_filter_not isDoorToggle (fun a => !isLightToggle a) base
          rw [List.countP_eq_zero] at this ⊢
          intro a ha
          apply this
          rw [List.mem_filter] at ha ⊢
          refine ⟨ha.1, ?_⟩
          have h2 := ha.2
          cases hL : isLightToggle a <;> cases hD : isDoorToggle a <;>
            rw [hL, hD] at h2 <;> simp_all
        rw [h0]
        simp [List.countP_cons, isDoorToggle_doorToggleFor,
          isDoorToggle_lightToggleFor]
      · rw [hform]
        simp
      · rw [hform]
        have : base.filter (fun a => !isLightToggle a && !isDoorToggle a) ++
              [lightToggleFor l, doorToggleFor d] =
            (base.filter (fun a => !isLightToggle a && !isDoorToggle a) ++
              [lightToggleFor l]) ++ [doorToggleFor d] := by
          rw [List.append_assoc]
          rfl
        rw [hcomb, this, List.getLast?_concat]

/-- C5 witness: the amended statement applied to a nonempty base list with an
on light and an open door. -/
theorem buildActions_toggle_spec_witness :
    ((buildActions [InteractionAction.examine, InteractionAction.turnOn]
        (some { is_on := true })
        (some { is_open := true, required_key_id := none })).filter
        (fun a => !isLightToggle a && !isDoorToggle a) =
      ([InteractionAction.examine, InteractionAction.turnOn] :
          List InteractionAction).filter
        (fun a => !isLightToggle a && !isDoorToggle a)) ∧
    (∀ l, (some { is_on := true } : Option Light) = some l →
      (buildActions [InteractionAction.examine, InteractionAction.turnOn]
          (some { is_on := true })
          (some { is_open := true, required_key_id := none })).countP
          isLightToggle = 1 ∧
      lightToggleFor l ∈
        buildActions [InteractionAction.examine, InteractionAction.turnOn]
          (some { is_on := true })
          (some { is_open := true, required_key_id := none }) ∧
      ((some { is_open := true, required_key_id := none } : Option Door) =
          none →
        (buildActions [InteractionAction.examine, InteractionAction.turnOn]
            (some { is_on := true })
            (some { is_open := true, required_key_id := none })).getLast? =
          some (lightToggleFor l)) ∧
      (∀ d, (some { is_open := true, required_key_id := none } :
            Option Door) = some d →
        buildActions [InteractionAction.examine, InteractionAction.turnOn]
            (some { is_on := true })
            (some { is_open := true, required_key_id := none }) =
          ([InteractionAction.examine, InteractionAction.turnOn] :
              List InteractionAction).filter
              (fun a => !isLightToggle a && !isDoorToggle a) ++
            [lightToggleFor l, doorToggleFor d])) ∧
    (∀ d, (some { is_open := true, required_key_id := none } :
          Option Door) = some d →
      (buildActions [InteractionAction.examine, InteractionAction.turnOn]
          (some { is_on := true })
          (some { is_open := true, required_key_id := none })).countP
          isDoorToggle = 1 ∧
      doorToggleFor d ∈
        buildActions [InteractionAction.examine, InteractionAction.turnOn]
          (some { is_on := true })
          (some { is_open := true, required_key_id := none }) ∧
      (buildActions [InteractionAction.examine, InteractionAction.turnOn]
          (some { is_on := true })
          (some { is_open := true, required_key_id := none })).getLast? =
        some (doorToggleFor d)) :=
  buildActions_toggle_spec [InteractionAction.examine, InteractionAction.turnOn]
    (some { is_on := true }) (some { is_open := true, required_key_id := none })

/-- Finding the `position` then calling `remove` is exactly "erase the first match". -/
lemma position_removeAt_eraseP (p : α → Bool) :
    ∀ l : List α,
      (match position p l with
        | some i => removeAt l i
        | none => l) = l.eraseP p
  | [] => rfl
  | a :: l => by
      have ih := position_removeAt_eraseP p l
      cases h : p a with
      | true => simp [position, h, removeAt, List.eraseP_cons]
      | false =>
          rw [List.eraseP_cons, h]
          cases hpos : position p l with
          | none =>
              rw [hpos] at ih
              have ih' : l = List.eraseP p l := ih
              simp [position, h, hpos, ← ih']
          | some i =>
              rw [hpos] at ih
              have ih' : removeAt l i = List.eraseP p l := ih
              simp [position, h, hpos, removeAt, ← ih']

/-- The method `take_item_by_id` leaves the inventory items equal to "first match
erased". -/
lemma take_item_items (inv : Inventory) (k : String) :
    (inv.take_item_by_id k).1.items =
      inv.items.eraseP (fun i => i.id == k) := by
  have h := position_removeAt_eraseP (fun i => i.id == k) inv.items
  unfold Inventory.take_item_by_id
  cases hpos : position (fun i => i.id == k) inv.items with
  | none =>
      rw [hpos] at h
      simpa using h
  | some i =>
      rw [hpos] at h
      simpa using h

/-- Erasing the first match from a list that has a match drops exactly one
element. -/
lemma length_eraseP_of_any (p : α → Bool) :
    ∀ l : List α, l.any p = true → (l.eraseP p).length + 1 = l.length
  | [] => by
      intro hany
      simp at hany
  | a :: l => by
      intro hany
      cases h : p a with
      | true => simp [List.eraseP_cons, h]
      | false =>
          have hl : l.any p = true := by
            simp only [List.any_cons, h, Bool.false_or] at hany
            exact hany
          have ih := length_eraseP_of_any p l hl
          simp only [List.eraseP_cons, h, cond_false, List.length_cons]
          omega

/-- Erasing the first match from a list that has a match drops exactly one
matching element. -/
lemma countP_eraseP_of_any (p : α → Bool) :
    ∀ l : List α, l.any p = true → (l.eraseP p).countP p + 1 = l.countP p
  | [] => by
      intro hany
      simp at hany
  | a :: l => by
      intro hany
      cases h : p a with
      | true => simp [List.eraseP_cons, h, List.countP_cons]
      | false =>
          have hl : l.any p = true := by
            simp only [List.any_cons, h, Bool.false_or] at hany
            exact hany
          have ih := countP_eraseP_of_any p l hl
          simp only [List.eraseP_cons, h, cond_false, List.countP_cons]
          omega

/-- C6: executing `Open` on a closed door requiring key `k` with a matching
item in the inventory consumes exactly one matching item (the first), opens
the door and removes its `Solid` marker; a second `Open` without an
intervening `Close` logs only "already open" and changes nothing — in
particular no second key is consumed. -/
theorem door_key_open_idempotent (name : String) (d : Door) (solid : Bool)
    (vis : Visibility) (inv : Inventory) (k : String)
    (hclosed : d.is_open = false) (hkey : d.required_key_id = some k)
    (hhas : inv.has_item_id k = true) :
    (processOpenDoor name d solid vis inv).door.is_open = true ∧
    (processOpenDoor name d solid vis inv).solid = false ∧
    (processOpenDoor name d solid vis inv).inv.items =
      inv.items.eraseP (fun i => i.id == k) ∧
    (processOpenDoor name d solid vis inv).inv.items.length + 1 =
      inv.items.length ∧
    (processOpenDoor name d solid vis inv).inv.items.countP
        (fun i => i.id == k) + 1 =
      inv.items.countP (fun i => i.id == k) ∧
    (processOpenDoor name d solid vis inv).log =
      ["* You open the " ++ name ++ ".", "* The lock clicks open."] ∧
    processOpenDoor name (processOpenDoor name d solid vis inv).door
        (processOpenDoor name d solid vis inv).solid
        (processOpenDoor name d solid vis inv).vis
        (processOpenDoor name d solid vis inv).inv =
      { door := (processOpenDoor name d solid vis inv).door
        solid := (processOpenDoor name d solid vis inv).solid
        vis := (processOpenDoor name d solid vis inv).vis
        inv := (processOpenDoor name d solid vis inv).inv
        log := ["* The " ++ name ++ " is already open."] } := by
  have hany : inv.items.any (fun i => i.id == k) = true := hhas
  have hr : processOpenDoor name d solid vis inv =
      { door := { d with is_open := true }, solid := false
        vis := Visibility.Hidden, inv := (inv.take_item_by_id k).1
        log := ["* You open the " ++ name ++ ".", "* The lock clicks open."] } := by
    unfold processOpenDoor
    simp [hclosed, hkey, hhas]
  rw [hr]
  refine ⟨rfl, rfl, take_item_items inv k, ?_, ?_, rfl, ?_⟩
  · rw [take_item_items inv k]
    exact length_eraseP_of_any _ inv.items hany
  · rw [take_item_items inv k]
    exact countP_eraseP_of_any _ inv.items hany
  · unfold processOpenDoor
    simp

/-- C6 witness: the Metal Door (locked by the Rusty Key) opened with the key
in inventory, then opened again. -/
theorem door_key_open_idempotent_witness :
    (processOpenDoor "Metal Door" metalDoor true Visibility.Visible
        keyInv).door.is_open = true ∧
    (processOpenDoor "Metal Door" metalDoor true Visibility.Visible
        keyInv).solid = false ∧
    (processOpenDoor "Metal Door" metalDoor true Visibility.Visible
        keyInv).inv.items =
      keyInv.items.eraseP (fun i => i.id == "Rusty Key") ∧
    (processOpenDoor "Metal Door" metalDoor true Visibility.Visible
        keyInv).inv.items.length + 1 = keyInv.items.length ∧
    (processOpenDoor "Metal Door" metalDoor true Visibility.Visible
        keyInv).inv.items.countP (fun i => i.id == "Rusty Key") + 1 =
      keyInv.items.countP (fun i => i.id == "Rusty Key") ∧
    (processOpenDoor "Metal Door" metalDoor true Visibility.Visible
        keyInv).log =
      ["* You open the Metal Door.", "* The lock clicks open."] ∧
    processOpenDoor "Metal Door"
        (processOpenDoor "Metal Door" metalDoor true Visibility.Visible
          keyInv).door
        (processOpenDoor "Metal Door" metalDoor true Visibility.Visible
          keyInv).solid
        (processOpenDoor "Metal Door" metalDoor true Visibility.Visible
          keyInv).vis
        (processOpenDoor "Metal Door" metalDoor true Visibility.Visible
          keyInv).inv =
      { door := (processOpenDoor "Metal Door" metalDoor true Visibility.Visible
          keyInv).door
        solid := (processOpenDoor "Metal Door" metalDoor true
          Visibility.Visible keyInv).solid
        vis := (processOpenDoor "Metal Door" metalDoor true Visibility.Visible
          keyInv).vis
        inv := (processOpenDoor "Metal Door" metalDoor true Visibility.Visible
          keyInv).inv
        log := ["* The Metal Door is already open."] } :=
  door_key_open_idempotent "Metal Door" metalDoor true Visibility.Visible
    keyInv "Rusty Key" rfl rfl (by decide)

/-- C7: executing `Open` on a closed door requiring key `k` with no matching
item in the inventory logs exactly the two failure lines and changes nothing:
the door stays closed, the `Solid` marker stays, the inventory is
untouched. -/
theorem door_locked_no_key (name : String) (d : Door) (solid : Bool)
    (vis : Visibility) (inv : Inventory) (k : String)
    (hclosed : d.is_open = false) (hkey : d.required_key_id = some k)
    (hno : inv.has_item_id k = false) :
    processOpenDoor name d solid vis inv =
      { door := d, solid := solid, vis := vis, inv := inv
        log := ["* The " ++ name ++ " is locked.",
                "* You need a matching key."] } := by
  unfold processOpenDoor
  simp [hclosed, hkey, hno]

/-- C7 witness: the Metal Door approached with an empty inventory. -/
theorem door_locked_no_key_witness :
    processOpenDoor "Metal Door" metalDoor true Visibility.Visible
        (Inventory.new 8) =
      { door := metalDoor, solid := true, vis := Visibility.Visible
        inv := Inventory.new 8
        log := ["* The Metal Door is locked.",
                "* You need a matching key."] } :=
  door_locked_no_key "Metal Door" metalDoor true Visibility.Visible
    (Inventory.new 8) "Rusty Key" rfl rfl (by decide)

/-- C8: in a frame where the menu-open or dialog-open flag is set when input
handling starts, the movement system leaves the player position unchanged, the
facing system leaves the facing unchanged, and the interaction dispatcher
emits no interaction event and no menu-open request (all three systems gate on
`menu_open || dialog_open`). -/
theorem modal_gating (menu_open dialog_open : Bool) (keys : MoveKeys)
    (delta : ℚ × ℚ) (solids : List SolidRec) (pos : ℚ × ℚ) (f : Direction)
    (interact_pressed : Bool) (ppos : ℚ × ℚ) (ents : List Ent)
    (h : menu_open = true ∨ dialog_open = true) :
    player_movement menu_open dialog_open keys delta solids pos = pos ∧
    update_player_facing menu_open dialog_open keys f = f ∧
    handle_interaction_input menu_open dialog_open interact_pressed ppos ents =
      { interaction := none, menu := none, info_logged := false } := by
  have hg : (menu_open || dialog_open) = true := by
    rcases h with h | h <;> simp [h]
  unfold player_movement update_player_facing handle_interaction_input
  rw [hg]
  simp

/-- C8 witness: with the menu open, a held up-key, a pending interact press
and an in-range interactable change nothing. -/
theorem modal_gating_witness :
    player_movement true false
        { up := true, down := false, left := false, right := false }
        (0, 1) [] (0, 0) = (0, 0) ∧
    update_player_facing true false
        { up := true, down := false, left := false, right := false }
        Direction.down = Direction.down ∧
    handle_interaction_input true false true (0, 0) [flickerEnt] =
      { interaction := none, menu := none, info_logged := false } :=
  modal_gating true false
    { up := true, down := false, left := false, right := false }
    (0, 1) [] (0, 0) Direction.down true (0, 0) [flickerEnt] (Or.inl rfl)

/-- C9: axis-separated collision resolution stops exactly at the solid's
boundary.  During the X pass (an arbitrary decomposition `l1 ++ s :: l2` of
the solids, with the running position after `l1`), if the player's AABB
overlaps solid `s` and the X delta is positive, the resolution clamps the
player so its max-x edge equals `s`'s min-x edge (symmetrically for negative
X), leaving no penetration of `s`; the rest of the pass continues from the
clamped position; and the Y pass behaves symmetrically at the already-resolved
X position `x`. -/
theorem collision_boundary_resolution (dx dy px py : ℚ)
    (l1 l2 m1 m2 : List SolidRec) (s t : SolidRec)
    (hov : overlapB (xPass dx l1 px py) py s = true) :
    (0 < dx →
      resolveXStep dx (xPass dx l1 px py) py s + halfX = sMinX s ∧
      overlapB (resolveXStep dx (xPass dx l1 px py) py s) py s = false) ∧
    (dx < 0 →
      resolveXStep dx (xPass dx l1 px py) py s - halfX = sMaxX s ∧
      overlapB (resolveXStep dx (xPass dx l1 px py) py s) py s = false) ∧
    xPass dx (l1 ++ s :: l2) px py =
      l2.foldl (fun x u => resolveXStep dx x py u)
        (resolveXStep dx (xPass dx l1 px py) py s) ∧
    (∀ x : ℚ, overlapB x (yPass dy m1 x py) t = true →
      (0 < dy →
        resolveYStep dy x (yPass dy m1 x py) t + halfY = sMinY t ∧
        overlapB x (resolveYStep dy x (yPass dy m1 x py) t) t = false) ∧
      (dy < 0 →
        resolveYStep dy x (yPass dy m1 x py) t - halfY = sMaxY t ∧
        overlapB x (resolveYStep dy x (yPass dy m1 x py) t) t = false) ∧
      yPass dy (m1 ++ t :: m2) x py =
        m2.foldl (fun y u => resolveYStep dy x y u)
          (resolveYStep dy x (yPass dy m1 x py) t)) := by
  refine ⟨?_, ?_, ?_, ?_⟩
  · intro hdx
    have hstep : resolveXStep dx (xPass dx l1 px py) py s = sMinX s - halfX := by
      simp [resolveXStep, hov, hdx]
    rw [hstep]
    constructor
    · ring
    · have hfalse : decide (sMinX s < sMinX s - halfX + halfX) = false := by
        apply decide_eq_false
        rw [sub_add_cancel]
        exact lt_irrefl _
      simp [overlapB, hfalse]
  · intro hdx
    have hnot : ¬0 < dx := not_lt.mpr (le_of_lt hdx)
    have hstep : resolveXStep dx (xPass dx l1 px py) py s = sMaxX s + halfX := by
      simp [resolveXStep, hov, hnot, hdx]
    rw [hstep]
    constructor
    · ring
    · have hfalse : decide (sMaxX s + halfX - halfX < sMaxX s) = false := by
        apply decide_eq_false
        rw [add_sub_cancel_right]
        exact lt_irrefl _
      simp [overlapB, hfalse]
  · simp [xPass, List.foldl_append]
  · intro x hovy
    refine ⟨?_, ?_, ?_⟩
    · intro hdy
      have hstep : resolveYStep dy x (yPass dy m1 x py) t = sMinY t - halfY := by
        simp [resolveYStep, hovy, hdy]
      rw [hstep]
      constructor
      · ring
      · have hfalse : decide (sMinY t < sMinY t - halfY + halfY) = false := by
          apply decide_eq_false
          rw [sub_add_cancel]
          exact lt_irrefl _
        simp [overlapB, hfalse]
    · intro hdy
      have hnot : ¬0 < dy := not_lt.mpr (le_of_lt hdy)
      have hstep : resolveYStep dy x (yPass dy m1 x py) t = sMaxY t + halfY := by
        simp [resolveYStep, hovy, hnot, hdy]
      rw [hstep]
      constructor
      · ring
      · have hfalse : decide (sMaxY t + halfY - halfY < sMaxY t) = false := by
          apply decide_eq_false
          rw [add_sub_cancel_right]
          exact lt_irrefl _
        simp [overlapB, hfalse]
    · simp [yPass, List.foldl_append]

/-- C9 witness: a player at the origin stepping 10 units right into the 16×16
solid centred at (20, 0) overlaps it after the raw X move; the theorem applies
with the trivial decompositions. -/
theorem collision_boundary_resolution_witness :
    ((0:ℚ) < 10 →
      resolveXStep 10 (xPass 10 [] 0 0) 0 wallSolid + halfX = sMinX wallSolid ∧
      overlapB (resolveXStep 10 (xPass 10 [] 0 0) 0 wallSolid) 0 wallSolid =
        false) ∧
    ((10:ℚ) < 0 →
      resolveXStep 10 (xPass 10 [] 0 0) 0 wallSolid - halfX = sMaxX wallSolid ∧
      overlapB (resolveXStep 10 (xPass 10 [] 0 0) 0 wallSolid) 0 wallSolid =
        false) ∧
    xPass 10 ([] ++ wallSolid :: []) 0 0 =
      List.foldl (fun x u => resolveXStep 10 x 0 u)
        (resolveXStep 10 (xPass 10 [] 0 0) 0 wallSolid) [] ∧
    (∀ x : ℚ, overlapB x (yPass (-5) [] x 0) wallSolid = true →
      ((0:ℚ) < -5 →
        resolveYStep (-5) x (yPass (-5) [] x 0) wallSolid + halfY =
          sMinY wallSolid ∧
        overlapB x (resolveYStep (-5) x (yPass (-5) [] x 0) wallSolid)
          wallSolid = false) ∧
      ((-5:ℚ) < 0 →
        resolveYStep (-5) x (yPass (-5) [] x 0) wallSolid - halfY =
          sMaxY wallSolid ∧
        overlapB x (resolveYStep (-5) x (yPass (-5) [] x 0) wallSolid)
          wallSolid = false) ∧
      yPass (-5) ([] ++ wallSolid :: []) x 0 =
        List.foldl (fun y u => resolveYStep (-5) x y u)
          (resolveYStep (-5) x (yPass (-5) [] x 0) wallSolid) []) :=
  collision_boundary_resolution 10 (-5) 0 0 [] [] [] [] wallSolid wallSolid
    (by norm_num [overlapB, xPass, sMinX, sMaxX, sMinY, sMaxY, solidHalf,
      halfX, halfY, wallSolid])

end Dissonance
